import Mathlib

/-!
Shallow embedding of the forecast-serving hot path of BreatheSmart-India:
the TTL result cache and the dual-window rate limiter
(src/backend/logging_config.py), the ensemble forecaster
(src/backend/ml_models.py) and the batch prediction fan-out
(src/ml/prediction_service.py).

Wall-clock time (`datetime.now()`, timestamps, TTLs) is modelled as ℚ in
seconds and passed explicitly wherever the Python code reads the clock.
Python numeric values are modelled as ℚ.
-/

namespace BreatheSmart

/-! ## Cache (src/backend/logging_config.py, class Cache)

`Cache.cache` is the Python dict `self.cache`, modelled as a total function
from keys to an optional entry; `set` stores `{'value': v, 'expiry': now+ttl}`,
`get` returns the value unless `now > expiry`, in which case it deletes the
entry and returns `none` (lazy expiry). -/

structure Cache (α : Type) where
  cache : String → Option (α × ℚ)
  default_ttl : ℚ

/-- Constructor `Cache(default_ttl=3600)`: empty dict. The background cleanup task is a
separate sweep, modelled by `Cache.cleanup` below. -/
def Cache.init (α : Type) (default_ttl : ℚ := 3600) : Cache α :=
  { cache := fun _ => none, default_ttl := default_ttl }

/-- Method `Cache.set(key, value, ttl)`: `expiry = datetime.now() + timedelta(seconds=ttl)`;
`ttl=None` uses the default. `now` is the clock reading at the call. -/
def Cache.set (c : Cache α) (key : String) (value : α) (ttl : Option ℚ)
    (now : ℚ) : Cache α :=
  let t := ttl.getD c.default_ttl
  { c with cache := fun k => if k = key then some (value, now + t) else c.cache k }

/-- Method `Cache.get(key)`: returns the stored value unless `datetime.now() > expiry`;
an expired entry is deleted and `None` returned. Returns the result together
with the post-call cache state. -/
def Cache.get (c : Cache α) (key : String) (now : ℚ) : Option α × Cache α :=
  match c.cache key with
  | none => (none, c)
  | some (value, expiry) =>
    if now > expiry then
      (none, { c with cache := fun k => if k = key then none else c.cache k })
    else
      (some value, c)

/-- Method `Cache._cleanup_task` body (one sweep): delete every entry whose expiry
has passed (`now > expiry`). -/
def Cache.cleanup (c : Cache α) (now : ℚ) : Cache α :=
  { c with cache := fun k =>
      match c.cache k with
      | none => none
      | some (value, expiry) => if now > expiry then none else some (value, expiry) }

/-! ## RateLimiter (src/backend/logging_config.py, class RateLimiter)

`minute_buckets` / `hour_buckets` are `defaultdict(list)` keyed by client id;
a missing key and an empty list are observationally the same, so both are
modelled as total functions into lists of timestamps. -/

structure RateLimiter where
  rpm_limit : ℕ
  rph_limit : ℕ
  minute_buckets : String → List ℚ
  hour_buckets : String → List ℚ

/-- Constructor `RateLimiter(requests_per_minute=60, requests_per_hour=1000)` with empty
buckets. -/
def RateLimiter.init (rpm : ℕ := 60) (rph : ℕ := 1000) : RateLimiter :=
  { rpm_limit := rpm, rph_limit := rph
    minute_buckets := fun _ => [], hour_buckets := fun _ => [] }

/-- Outcome of `check_rate_limit`: pass through, or the HTTP 429 raised by the
minute check / the hour check (the `detail` string names the limiting window). -/
inductive RateDecision
  | allowed
  | deniedMinute
  | deniedHour
  deriving DecidableEq, Repr

/-- Method `RateLimiter.check_rate_limit`: count stored minute-bucket timestamps with
`ts > now - 1 minute`; if `≥ rpm_limit` raise (minute reason). Otherwise count
stored hour-bucket timestamps with `ts > now - 1 hour`; if `≥ rph_limit` raise
(hour reason). Otherwise append `now` to both buckets. -/
def RateLimiter.check_rate_limit (rl : RateLimiter) (client : String)
    (now : ℚ) : RateDecision × RateLimiter :=
  let minute_requests := (rl.minute_buckets client).filter (fun ts => now - 60 < ts)
  if rl.rpm_limit ≤ minute_requests.length then
    (.deniedMinute, rl)
  else
    let hour_requests := (rl.hour_buckets client).filter (fun ts => now - 3600 < ts)
    if rl.rph_limit ≤ hour_requests.length then
      (.deniedHour, rl)
    else
      (.allowed,
        { rl with
          minute_buckets := fun c =>
            if c = client then rl.minute_buckets c ++ [now] else rl.minute_buckets c
          hour_buckets := fun c =>
            if c = client then rl.hour_buckets c ++ [now] else rl.hour_buckets c })

/-- Method `RateLimiter._cleanup_old_requests`: keep minute-bucket timestamps with
`ts > now - 2 minutes` and hour-bucket timestamps with `ts > now - 2 hours`.
(Deleting a key whose list became empty is unobservable in this model.) -/
def RateLimiter.cleanup_old_requests (rl : RateLimiter) (now : ℚ) : RateLimiter :=
  { rl with
    minute_buckets := fun c => (rl.minute_buckets c).filter (fun ts => now - 120 < ts)
    hour_buckets := fun c => (rl.hour_buckets c).filter (fun ts => now - 7200 < ts) }

/-- Per-client containment of the minute window in the hour window: every
timestamp stored in a client's minute bucket also occurs, in order, in that
client's hour bucket. -/
def RateLimiter.Inv (rl : RateLimiter) : Prop :=
  ∀ c, (rl.minute_buckets c).Sublist (rl.hour_buckets c)

/-! ## Ensemble forecaster (src/backend/ml_models.py, class AQIPredictionModel)

The three underlying models (`self.lstm_model`, `self.rf_model`,
`self.gb_model`) are externally trained artifacts queried per step; they are
modelled as function parameters that either produce a value (`.ok`) or raise
(`.error ()`).  `datetime.now()` is passed in explicitly as `now` (seconds);
`timedelta(hours=i)` is `3600 * i` seconds. -/

/-- Field `self.sequence_length = 24`. -/
def sequence_length : ℕ := 24

/-- Field `self.n_features = 10`. -/
def n_features : ℕ := 10

/-- One row of the feature matrix: 10 pollutant/weather readings. -/
abbrev Feature := List ℚ

/-- One entry of `historical_data`: a dict whose keys may be absent
(`record.get(key, default)` supplies the default). -/
structure Record where
  aqi : Option ℚ
  pm25 : Option ℚ
  pm10 : Option ℚ
  no2 : Option ℚ
  so2 : Option ℚ
  co : Option ℚ
  o3 : Option ℚ
  temp : Option ℚ
  humidity : Option ℚ
  wind_speed : Option ℚ

/-- The feature vector built from one historical record in
`_prepare_features`, with the source's per-key defaults. -/
def Record.features (r : Record) : Feature :=
  [r.aqi.getD 150, r.pm25.getD 90, r.pm10.getD 140, r.no2.getD 40,
   r.so2.getD 10, r.co.getD 1.5, r.o3.getD 30, r.temp.getD 25,
   r.humidity.getD 60, r.wind_speed.getD 10]

/-- One entry of `weather_forecast` (a dict; `weather.get(key, default)`
supplies the default). -/
structure Weather where
  temp : Option ℚ
  humidity : Option ℚ
  wind_speed : Option ℚ

/-- Python's `l[-n:]`: the last `n` elements (all of them when `n ≥ len`). -/
def lastN (n : ℕ) (l : List α) : List α :=
  l.drop (l.length - n)

/-- The padding loop of `_prepare_features`:
`while len(features_list) < 24: features_list.insert(0, features_list[0] if
features_list else [150]*10)`.  Each iteration re-inserts the current head
(which the first iteration fixed), so the net effect is to replicate the head
(or the all-150 default row on an empty list) in front until the length
reaches `sequence_length`. -/
def pad_features : List Feature → List Feature
  | [] => List.replicate sequence_length (List.replicate n_features 150)
  | x :: xs => List.replicate (sequence_length - (x :: xs).length) x ++ x :: xs

/-- Method `_prepare_features`: feature rows of the last `sequence_length` historical
records, front-padded to exactly `sequence_length` rows. (The
`weather_forecast` argument of the source function is unused there.) -/
def prepare_features (historical_data : List Record) : List Feature :=
  pad_features ((lastN sequence_length historical_data).map Record.features)

/-- Method `_create_feature_vector`: synthesize the next feature row from the
predicted AQI (fixed pollutant ratios) and the weather reading for this hour,
falling back to the last reading when `hour` is beyond the forecast
(`weather_forecast[-1]`, which raises on an empty list — modelled as `none`). -/
def create_feature_vector (predicted_aqi : ℚ) (hour : ℕ)
    (weather_forecast : List Weather) : Option Feature :=
  (if hour < weather_forecast.length then weather_forecast[hour]?
   else weather_forecast.getLast?).map fun weather =>
    [predicted_aqi, predicted_aqi * 0.6, predicted_aqi * 0.8,
     predicted_aqi * 0.15, predicted_aqi * 0.08, predicted_aqi * 0.01,
     predicted_aqi * 0.12, weather.temp.getD 25, weather.humidity.getD 60,
     weather.wind_speed.getD 10]

/-- Method `_calculate_confidence`: `max(70.0, min(95.0, 94.0 - hour * 0.4))`.
(`total_hours` is unused in the source as well.) -/
def calculate_confidence (hour : ℕ) (_total_hours : ℕ) : ℚ :=
  max 70 (min 95 (94 - (hour : ℚ) * 0.4))

/-- Method `_get_risk_level`: step function of the (unrounded) ensemble value. -/
def get_risk_level (aqi : ℚ) : String :=
  if aqi ≤ 50 then "Good"
  else if aqi ≤ 100 then "Moderate"
  else if aqi ≤ 200 then "Poor"
  else if aqi ≤ 300 then "Very Poor"
  else "Severe"

/-- Python's `round` to the nearest integer: half-to-even (banker's
rounding), exact on the rationals this model computes with. -/
def round_half_even (x : ℚ) : ℤ :=
  if x - ⌊x⌋ < 1 / 2 then ⌊x⌋
  else if 1 / 2 < x - ⌊x⌋ then ⌊x⌋ + 1
  else if ⌊x⌋ % 2 = 0 then ⌊x⌋ else ⌊x⌋ + 1

/-- Python's `round(x, 1)` (one decimal place). -/
def round1 (x : ℚ) : ℚ :=
  (round_half_even (10 * x) : ℚ) / 10

/-- Method `_safe_predict`: return `model.predict(features)[0]`, falling back to
`150.0` when the call raises or the model has no `predict` attribute. -/
def safe_predict (model : Feature → Except Unit ℚ) (features : Feature) : ℚ :=
  match model features with
  | .ok v => v
  | .error _ => 150

/-- One element of the list `predict` returns (a dict in the source). -/
structure ForecastPoint where
  hour : ℕ
  timestamp : ℚ
  predicted_aqi : ℚ
  confidence : ℚ
  lower_bound : ℚ
  upper_bound : ℚ
  risk_level : String
  deriving DecidableEq, Repr

/-- The dict appended for output hour `i` in the loop of `predict`:
spread `(1 - confidence/100) * 0.2`; `predicted_aqi` and `lower_bound` pass
through `max(0, round(·, 1))`, while `upper_bound` is only `round(·, 1)`. -/
def mkForecastPoint (ensemble_pred : ℚ) (i : ℕ) (hours : ℕ) (now : ℚ) :
    ForecastPoint :=
  let confidence := calculate_confidence i hours
  let lower_bound := ensemble_pred * (1 - (1 - confidence / 100) * 0.2)
  let upper_bound := ensemble_pred * (1 + (1 - confidence / 100) * 0.2)
  { hour := i
    timestamp := now + 3600 * i
    predicted_aqi := max 0 (round1 ensemble_pred)
    confidence := round1 confidence
    lower_bound := max 0 (round1 lower_bound)
    upper_bound := round1 upper_bound
    risk_level := get_risk_level ensemble_pred }

/-- The `for i in range(hours)` loop of `predict`, with `i` the current hour
offset and the second argument the number of hours still to produce.  The
LSTM call is *not* guarded by `_safe_predict`, so its failure aborts the
whole prediction; `rf`/`gb` go through `safe_predict`.  The window advances
by dropping the oldest row and appending the synthesized one. -/
def predict_loop (lstm : List Feature → Except Unit ℚ)
    (rf gb : Feature → Except Unit ℚ) (weather_forecast : List Weather)
    (now : ℚ) (hours : ℕ) :
    ℕ → ℕ → List Feature → Except Unit (List ForecastPoint)
  | _, 0, _ => .ok []
  | i, remaining + 1, current_sequence =>
    match lstm current_sequence with
    | .error e => .error e
    | .ok lstm_pred =>
      -- `current_sequence[-1]` (the window is never empty in `predict`)
      match current_sequence.getLast? with
      | none => .error ()
      | some recent_features =>
        let rf_pred := safe_predict rf recent_features
        let gb_pred := safe_predict gb recent_features
        let ensemble_pred := 0.5 * lstm_pred + 0.3 * rf_pred + 0.2 * gb_pred
        match create_feature_vector ensemble_pred i weather_forecast with
        | none => .error ()
        | some new_feature =>
          match predict_loop lstm rf gb weather_forecast now hours (i + 1)
              remaining (current_sequence.drop 1 ++ [new_feature]) with
          | .error e => .error e
          | .ok rest => .ok (mkForecastPoint ensemble_pred i hours now :: rest)

/-- Method `AQIPredictionModel.predict(historical_data, weather_forecast, hours)`:
prepare the feature matrix, take the last `sequence_length` rows as the
working window, and run the hourly loop. -/
def predict (lstm : List Feature → Except Unit ℚ)
    (rf gb : Feature → Except Unit ℚ) (now : ℚ)
    (historical_data : List Record) (weather_forecast : List Weather)
    (hours : ℕ) : Except Unit (List ForecastPoint) :=
  let features := prepare_features historical_data
  let current_sequence := lastN sequence_length features
  predict_loop lstm rf gb weather_forecast now hours 0 hours current_sequence

/-- Every field of a `ForecastPoint` except its `timestamp`. -/
def ForecastPoint.drop_timestamp (p : ForecastPoint) :
    ℕ × ℚ × ℚ × ℚ × ℚ × String :=
  (p.hour, p.predicted_aqi, p.confidence, p.lower_bound, p.upper_bound,
   p.risk_level)

/-! ## Batch prediction (src/ml/prediction_service.py, batch_predict)

`asyncio.gather(*tasks)` without `return_exceptions=True`: if every task
returns a value, the list of results is returned in task order; if any task
raises, the exception propagates and no task's result is returned. -/

def gather_except : List (Except Unit α) → Except Unit (List α)
  | [] => .ok []
  | x :: xs =>
    match x with
    | .error e => .error e
    | .ok v =>
      match gather_except xs with
      | .error e => .error e
      | .ok vs => .ok (v :: vs)

/-- Method `PredictionService.batch_predict(cities, hours)`: one `get_predictions`
task per city, gathered, then assembled into the mapping
`{result['city']: result}` (modelled as an association list in task order;
`city_of` extracts `result['city']`). `get_predictions` is the per-city
forecast computation, a collaborator from this function's point of view. -/
def batch_predict (get_predictions : String → Except Unit α)
    (city_of : α → String) (cities : List String) :
    Except Unit (List (String × α)) :=
  (gather_except (cities.map get_predictions)).map fun results =>
    results.map fun result => (city_of result, result)

/-! ## Concrete model stubs used by counterexamples and witnesses -/

/-- A sequence model that always produces `q`. -/
def lstm_const (q : ℚ) : List Feature → Except Unit ℚ := fun _ => .ok q

/-- A sequence model whose `predict` raises. -/
def lstm_fail : List Feature → Except Unit ℚ := fun _ => .error ()

/-- A point estimator that always produces `q`. -/
def estimator_const (q : ℚ) : Feature → Except Unit ℚ := fun _ => .ok q

/-- A point estimator whose `predict` raises. -/
def estimator_fail : Feature → Except Unit ℚ := fun _ => .error ()

/-- A weather dict with every key absent (all defaults apply). -/
def weather_blank : Weather := ⟨none, none, none⟩

/-- A per-city forecast that fails for city "B" and succeeds (echoing the
city) for every other city. -/
def forecast_fails_for_B : String → Except Unit String :=
  fun city => if city = "B" then .error () else .ok city

/-! ## Cache TTL theorems (claim C1) -/

/-- C1, counterexample: set "k" with ttl = 5 at time 0; a `get` exactly 5
seconds after the `set` (elapsed time ≥ ttl) still returns the value, because
the source expires only when `now > expiry` (strict). The claim as stated
says `get` returns absent at any time ≥ t after the set. -/
theorem cache_get_at_exact_ttl_returns_value :
    ((5 : ℚ) - 0 ≥ 5) ∧
    (((Cache.init ℚ).set "k" 42 (some 5) 0).get "k" 5).fst = some 42 := by
  constructor
  · norm_num
  · norm_num [Cache.get, Cache.set, Cache.init]

/-- C1, amended: after a `set` of key `k` to value `v` with ttl `t` at time `now`, a `get` at elapsed
time `d ≤ t` returns the value, and a `get` at elapsed time `d > t` returns
absent and evicts the entry (lazy expiry, with no sweep in between). -/
theorem cache_ttl_boundary {α : Type} (c : Cache α) (k : String) (v : α)
    (t now d : ℚ) :
    (d ≤ t → ((c.set k v (some t) now).get k (now + d)).fst = some v) ∧
    (t < d →
      ((c.set k v (some t) now).get k (now + d)).fst = none ∧
      (((c.set k v (some t) now).get k (now + d)).snd).cache k = none) := by
  constructor
  · intro h
    simp [Cache.set, Cache.get, not_lt.mpr h]
  · intro h
    simp [Cache.set, Cache.get, h]

/-- C1 witness: with ttl = 5 set at time 0, a get 3 seconds later returns the
value, and a get 6 seconds later returns absent and has evicted the entry. -/
theorem cache_ttl_boundary_witness :
    (((Cache.init ℚ).set "k" 42 (some 5) 0).get "k" (0 + 3)).fst = some 42 ∧
    (((Cache.init ℚ).set "k" 42 (some 5) 0).get "k" (0 + 6)).fst = none := by
  exact ⟨(cache_ttl_boundary (Cache.init ℚ) "k" 42 5 0 3).1 (by norm_num),
         ((cache_ttl_boundary (Cache.init ℚ) "k" 42 5 0 6).2 (by norm_num)).1⟩

/-! ## Rate limiter theorems (claims C4, C5, C10) -/

/-- C4: a request is denied iff the stored minute-window count (timestamps
with `ts > now - 60`) is ≥ `rpm_limit` or the stored hour-window count
(timestamps with `ts > now - 3600`) is ≥ `rph_limit`; the minute check is
evaluated first, so whenever the minute count is over the limit the reported
reason is the minute limit; the constructor defaults are 60 rpm / 1000 rph;
and with `rpm_limit = 3` three requests within a minute are allowed, the
fourth is denied with the minute reason, and a request after the minute has
passed is allowed again. -/
theorem rate_limit_decision (rl : RateLimiter) (client : String) (now : ℚ) :
    ((rl.check_rate_limit client now).fst ≠ .allowed ↔
      rl.rpm_limit ≤ ((rl.minute_buckets client).filter (fun ts => now - 60 < ts)).length ∨
      rl.rph_limit ≤ ((rl.hour_buckets client).filter (fun ts => now - 3600 < ts)).length) ∧
    ((rl.check_rate_limit client now).fst = .deniedMinute ↔
      rl.rpm_limit ≤ ((rl.minute_buckets client).filter (fun ts => now - 60 < ts)).length) ∧
    (RateLimiter.init.rpm_limit = 60 ∧ RateLimiter.init.rph_limit = 1000) ∧
    (let s0 := RateLimiter.init 3 1000
     let p1 := s0.check_rate_limit "c" 0
     let p2 := p1.snd.check_rate_limit "c" 10
     let p3 := p2.snd.check_rate_limit "c" 20
     let p4 := p3.snd.check_rate_limit "c" 30
     let p5 := p4.snd.check_rate_limit "c" 100
     p1.fst = .allowed ∧ p2.fst = .allowed ∧ p3.fst = .allowed ∧
     p4.fst = .deniedMinute ∧ p5.fst = .allowed) := by
  refine ⟨?_, ?_, ⟨rfl, rfl⟩, ?_⟩
  · simp only [RateLimiter.check_rate_limit]
    split_ifs with h1 h2
    · simp [h1]
    · simp [h1, h2]
    · simp [h1, h2]
  · simp only [RateLimiter.check_rate_limit]
    split_ifs with h1 h2
    · simp [h1]
    · simp [h1]
    · simp [h1]
  · norm_num [RateLimiter.check_rate_limit, RateLimiter.init]

/-- C5: when `check_rate_limit` allows, the current timestamp is appended to
both the minute bucket and the hour bucket of that client (other clients'
buckets are untouched); when it denies, the limiter state is returned
unchanged. -/
theorem rate_limit_recording (rl : RateLimiter) (client : String) (now : ℚ) :
    ((rl.check_rate_limit client now).fst = .allowed →
      (rl.check_rate_limit client now).snd.minute_buckets client
          = rl.minute_buckets client ++ [now] ∧
      (rl.check_rate_limit client now).snd.hour_buckets client
          = rl.hour_buckets client ++ [now] ∧
      ∀ c, c ≠ client →
        (rl.check_rate_limit client now).snd.minute_buckets c = rl.minute_buckets c ∧
        (rl.check_rate_limit client now).snd.hour_buckets c = rl.hour_buckets c) ∧
    ((rl.check_rate_limit client now).fst ≠ .allowed →
      (rl.check_rate_limit client now).snd = rl) := by
  simp only [RateLimiter.check_rate_limit]
  split_ifs with h1 h2
  · exact ⟨fun hco => (nomatch hco), fun _ => rfl⟩
  · exact ⟨fun hco => (nomatch hco), fun _ => rfl⟩
  · refine ⟨fun _ => ⟨by simp, by simp, fun c hc => ⟨by simp [hc], by simp [hc]⟩⟩,
      fun hco => absurd rfl hco⟩

/-- C5 witness: a fresh limiter allows a request and records timestamp 0 in
the client's minute bucket; a limiter with `rpm_limit = 0` denies and is
returned unchanged. -/
theorem rate_limit_recording_witness :
    ((RateLimiter.init 3 1000).check_rate_limit "c" 0).snd.minute_buckets "c" = [0] ∧
    ((RateLimiter.init 0 1000).check_rate_limit "c" 0).snd = RateLimiter.init 0 1000 := by
  constructor
  · have h := (rate_limit_recording (RateLimiter.init 3 1000) "c" 0).1 (by
      norm_num [RateLimiter.check_rate_limit, RateLimiter.init])
    rw [h.1]
    norm_num [RateLimiter.init]
  · exact (rate_limit_recording (RateLimiter.init 0 1000) "c" 0).2 (by decide)

/-- C10: the minute-bucket ⊆ hour-bucket containment holds for a freshly
constructed limiter, is preserved by every `check_rate_limit` call (which
appends the same timestamp to both buckets or to neither), and is preserved
by every cleanup pass (minute cutoff `now - 120`, hour cutoff `now - 7200`). -/
theorem minute_sublist_hour_invariant :
    (∀ rpm rph, (RateLimiter.init rpm rph).Inv) ∧
    (∀ (rl : RateLimiter) (client : String) (now : ℚ),
      rl.Inv → ((rl.check_rate_limit client now).snd).Inv) ∧
    (∀ (rl : RateLimiter) (now : ℚ), rl.Inv → (rl.cleanup_old_requests now).Inv) := by
  refine ⟨fun rpm rph c => List.nil_sublist _, ?_, ?_⟩
  · intro rl client now h
    simp only [RateLimiter.check_rate_limit]
    split_ifs with h1 h2
    · exact h
    · exact h
    · intro c
      dsimp only
      by_cases hc : c = client
      · rw [if_pos hc, if_pos hc]
        exact (h c).append (List.Sublist.refl _)
      · rw [if_neg hc, if_neg hc]
        exact h c
  · intro rl now h c
    simp only [RateLimiter.cleanup_old_requests]
    exact (List.monotone_filter_right _ (fun a ha => by
      simp only [decide_eq_true_eq] at ha ⊢
      linarith)).trans ((h c).filter _)

/-- C10 witness: the containment holds concretely after one allowed request
on a fresh limiter. -/
theorem minute_sublist_hour_invariant_witness :
    (((RateLimiter.init 3 1000).check_rate_limit "c" 0).snd.minute_buckets "c").Sublist
      (((RateLimiter.init 3 1000).check_rate_limit "c" 0).snd.hour_buckets "c") :=
  minute_sublist_hour_invariant.2.1 (RateLimiter.init 3 1000) "c" 0
    (minute_sublist_hour_invariant.1 3 1000) "c"

/-! ## Forecaster helper lemmas -/

theorem prepare_features_length (h : List Record) :
    (prepare_features h).length = sequence_length := by
  unfold prepare_features pad_features
  cases hm : (lastN sequence_length h).map Record.features with
  | nil => simp
  | cons x xs =>
    have hle : (x :: xs).length ≤ sequence_length := by
      rw [← hm, List.length_map]
      unfold lastN
      simp only [List.length_drop]
      omega
    simp only [List.length_append, List.length_replicate]
    omega

theorem prepare_features_ne_nil (h : List Record) :
    lastN sequence_length (prepare_features h) ≠ [] := by
  have hlen := prepare_features_length h
  unfold lastN
  intro hcon
  have := congrArg List.length hcon
  simp only [List.length_drop, hlen] at this
  simp [sequence_length] at this

theorem create_feature_vector_total (e : ℚ) (i : ℕ) (w : List Weather)
    (hw : w ≠ []) : ∃ f, create_feature_vector e i w = some f := by
  unfold create_feature_vector
  by_cases hi : i < w.length
  · rw [if_pos hi]
    cases hg : w[i]? with
    | none => exact absurd (List.getElem?_eq_none_iff.mp hg) (by omega)
    | some x => exact ⟨_, rfl⟩
  · rw [if_neg hi]
    cases hg : w.getLast? with
    | none => exact absurd (List.getLast?_eq_none_iff.mp hg) hw
    | some x => exact ⟨_, rfl⟩

theorem predict_loop_ok_shape (lstm : List Feature → Except Unit ℚ)
    (rf gb : Feature → Except Unit ℚ) (w : List Weather) (now : ℚ)
    (hours : ℕ) :
    ∀ (r i : ℕ) (seq : List Feature) (ps : List ForecastPoint),
      predict_loop lstm rf gb w now hours i r seq = .ok ps →
      ps.length = r ∧ ∀ j (hj : j < ps.length), (ps.get ⟨j, hj⟩).hour = i + j := by
  intro r
  induction r with
  | zero =>
    intro i seq ps h
    simp only [predict_loop] at h
    cases h
    exact ⟨rfl, fun j hj => absurd hj (by simp)⟩
  | succ n ih =>
    intro i seq ps h
    simp only [predict_loop] at h
    split at h
    · cases h
    · split at h
      · cases h
      · split at h
        · cases h
        · split at h
          · cases h
          · cases h
            next rest hrec =>
            obtain ⟨hlen, hhour⟩ := ih (i + 1) _ rest hrec
            refine ⟨by simp [hlen], ?_⟩
            intro j hj
            cases j with
            | zero => simp [mkForecastPoint]
            | succ m =>
              simp only [List.length_cons, hlen] at hj
              have := hhour m (by omega)
              simp only [List.get_cons_succ]
              rw [this]
              omega

theorem predict_loop_total (lstm : List Feature → Except Unit ℚ)
    (rf gb : Feature → Except Unit ℚ) (w : List Weather) (now : ℚ)
    (hours : ℕ) (hlstm : ∀ s, ∃ q, lstm s = .ok q) (hw : w ≠ []) :
    ∀ (r i : ℕ) (seq : List Feature), seq ≠ [] →
      ∃ ps, predict_loop lstm rf gb w now hours i r seq = .ok ps := by
  intro r
  induction r with
  | zero => exact fun i seq _ => ⟨[], by simp [predict_loop]⟩
  | succ n ih =>
    intro i seq hseq
    obtain ⟨q, hq⟩ := hlstm seq
    obtain ⟨recent, hrecent⟩ :=
      Option.ne_none_iff_exists'.mp (mt List.getLast?_eq_none_iff.mp hseq)
    obtain ⟨f, hf⟩ := create_feature_vector_total
      (0.5 * q + 0.3 * safe_predict rf recent + 0.2 * safe_predict gb recent)
      i w hw
    obtain ⟨rest, hrest⟩ := ih (i + 1) (seq.drop 1 ++ [f]) (by simp)
    refine ⟨mkForecastPoint
      (0.5 * q + 0.3 * safe_predict rf recent + 0.2 * safe_predict gb recent)
      i hours now :: rest, ?_⟩
    simp only [predict_loop, hq, hrecent, hf, hrest]

/-! ## Risk-level theorems (claim C9) -/

/-- C9: the risk level is the step function of the ensemble value with bands
`≤ 50` Good, `≤ 100` Moderate, `≤ 200` Poor, `≤ 300` Very Poor, else Severe
(lower-inclusive boundaries), and in particular 50 ↦ Good, 50.01 ↦ Moderate,
300 ↦ Very Poor, 300.01 ↦ Severe. -/
theorem risk_level_step_function :
    (∀ q : ℚ, q ≤ 50 → get_risk_level q = "Good") ∧
    (∀ q : ℚ, 50 < q → q ≤ 100 → get_risk_level q = "Moderate") ∧
    (∀ q : ℚ, 100 < q → q ≤ 200 → get_risk_level q = "Poor") ∧
    (∀ q : ℚ, 200 < q → q ≤ 300 → get_risk_level q = "Very Poor") ∧
    (∀ q : ℚ, 300 < q → get_risk_level q = "Severe") ∧
    get_risk_level 50 = "Good" ∧ get_risk_level 50.01 = "Moderate" ∧
    get_risk_level 300 = "Very Poor" ∧ get_risk_level 300.01 = "Severe" := by
  refine ⟨?_, ?_, ?_, ?_, ?_, ?_, ?_, ?_, ?_⟩ <;>
    first
    | (intro q h1 h2
       unfold get_risk_level
       split_ifs <;> first | rfl | linarith)
    | (intro q h1
       unfold get_risk_level
       split_ifs <;> first | rfl | linarith)
    | norm_num [get_risk_level]

/-- C9 witness: the Moderate band applied at 60. -/
theorem risk_level_step_function_witness : get_risk_level 60 = "Moderate" :=
  risk_level_step_function.2.1 60 (by norm_num) (by norm_num)

/-! ## Forecast length theorems (claim C6) -/

/-- C6: whenever the sequence model produces a value on every window and the
weather forecast is non-empty, `predict` returns a list of exactly `hours`
forecast points whose hour offsets are 0, 1, ..., hours-1 in order. -/
theorem predict_returns_hours_points (lstm : List Feature → Except Unit ℚ)
    (rf gb : Feature → Except Unit ℚ) (now : ℚ)
    (historical_data : List Record) (weather_forecast : List Weather)
    (hours : ℕ) (hlstm : ∀ s, ∃ q, lstm s = .ok q)
    (hw : weather_forecast ≠ []) :
    ∃ ps, predict lstm rf gb now historical_data weather_forecast hours
        = .ok ps ∧
      ps.length = hours ∧
      ∀ j (hj : j < ps.length), (ps.get ⟨j, hj⟩).hour = j := by
  obtain ⟨ps, hps⟩ := predict_loop_total lstm rf gb weather_forecast now hours
    hlstm hw hours 0 (lastN sequence_length (prepare_features historical_data))
    (prepare_features_ne_nil historical_data)
  obtain ⟨hlen, hhour⟩ := predict_loop_ok_shape lstm rf gb weather_forecast
    now hours hours 0 _ ps hps
  exact ⟨ps, hps, hlen, fun j hj => by simpa using hhour j hj⟩

/-- C6 witness: a concrete 3-hour run returns 3 points with hours 0, 1, 2. -/
theorem predict_returns_hours_points_witness :
    ∃ ps, predict (lstm_const 80) (estimator_const 90) (estimator_const 100)
        0 [] [weather_blank] 3 = .ok ps ∧
      ps.length = 3 ∧
      ∀ j (hj : j < ps.length), (ps.get ⟨j, hj⟩).hour = j :=
  predict_returns_hours_points (lstm_const 80) (estimator_const 90)
    (estimator_const 100) 0 [] [weather_blank] 3
    (fun s => ⟨80, rfl⟩) (by simp)

/-! ## Estimator-failure theorems (claim C2) -/

theorem predict_loop_estimator_congr (lstm : List Feature → Except Unit ℚ)
    (rf rf' gb gb' : Feature → Except Unit ℚ) (w : List Weather) (now : ℚ)
    (hours : ℕ) (hrf : ∀ v, safe_predict rf v = safe_predict rf' v)
    (hgb : ∀ v, safe_predict gb v = safe_predict gb' v) :
    ∀ (r i : ℕ) (seq : List Feature),
      predict_loop lstm rf gb w now hours i r seq
        = predict_loop lstm rf' gb' w now hours i r seq := by
  intro r
  induction r with
  | zero => intro i seq; rfl
  | succ n ih =>
    intro i seq
    simp only [predict_loop, hrf, hgb, ih]

/-- C2, counterexample: a failing sequence model is *not* replaced by the
fallback — the `lstm_model.predict` call is outside `_safe_predict`, so its
failure propagates out of `predict` instead of yielding a complete
prediction list. -/
theorem lstm_failure_propagates :
    predict lstm_fail (estimator_const 100) (estimator_const 100) 0 []
      [weather_blank] 1 = .error () := by rfl

/-- C2, amended: only the two point estimators are guarded: a point-estimator
call that raises is replaced by the constant 150.0 (so a forecaster with an
always-failing point estimator computes exactly what one with a constant-150
estimator computes, and no point-estimator failure escapes `predict`), while
`predict` as a whole succeeds whenever the sequence model succeeds on every
window (and the weather forecast is non-empty); a sequence-model failure, by
contrast, propagates (see the counterexample). -/
theorem estimator_failure_fallback :
    (∀ (m : Feature → Except Unit ℚ) (v : Feature),
      m v = .error () → safe_predict m v = 150) ∧
    (∀ lstm gb now hist w hours,
      predict lstm estimator_fail gb now hist w hours
        = predict lstm (estimator_const 150) gb now hist w hours) ∧
    (∀ lstm rf now hist w hours,
      predict lstm rf estimator_fail now hist w hours
        = predict lstm rf (estimator_const 150) now hist w hours) ∧
    (∀ lstm rf gb now hist w hours,
      (∀ s, ∃ q, lstm s = .ok q) → w ≠ [] →
      ∃ ps, predict lstm rf gb now hist w hours = .ok ps) := by
  refine ⟨?_, ?_, ?_, ?_⟩
  · intro m v hm
    simp [safe_predict, hm]
  · intro lstm gb now hist w hours
    exact predict_loop_estimator_congr lstm estimator_fail (estimator_const 150)
      gb gb w now hours (fun v => rfl) (fun v => rfl) hours 0 _
  · intro lstm rf now hist w hours
    exact predict_loop_estimator_congr lstm rf rf estimator_fail
      (estimator_const 150) w now hours (fun v => rfl) (fun v => rfl) hours 0 _
  · intro lstm rf gb now hist w hours hlstm hw
    exact predict_loop_total lstm rf gb w now hours hlstm hw hours 0 _
      (prepare_features_ne_nil hist)

/-- C2 witness: a concrete failing estimator call falls back to 150, and a
concrete run with a failing point estimator still succeeds. -/
theorem estimator_failure_fallback_witness :
    safe_predict estimator_fail [100] = 150 ∧
    ∃ ps, predict (lstm_const 80) estimator_fail (estimator_const 100) 0 []
        [weather_blank] 2 = .ok ps :=
  ⟨estimator_failure_fallback.1 estimator_fail [100] rfl,
   estimator_failure_fallback.2.2.2 (lstm_const 80) estimator_fail
     (estimator_const 100) 0 [] [weather_blank] 2 (fun s => ⟨80, rfl⟩)
     (by simp)⟩

/-! ## Bound-flooring theorems (claim C3) -/

theorem predict_loop_mem (lstm : List Feature → Except Unit ℚ)
    (rf gb : Feature → Except Unit ℚ) (w : List Weather) (now : ℚ)
    (hours : ℕ) :
    ∀ (r i : ℕ) (seq : List Feature) (ps : List ForecastPoint),
      predict_loop lstm rf gb w now hours i r seq = .ok ps →
      ∀ p ∈ ps, ∃ e j, p = mkForecastPoint e j hours now := by
  intro r
  induction r with
  | zero =>
    intro i seq ps h
    simp only [predict_loop] at h
    cases h
    exact fun p hp => absurd hp (List.not_mem_nil p)
  | succ n ih =>
    intro i seq ps h
    simp only [predict_loop] at h
    split at h
    · cases h
    · split at h
      · cases h
      · split at h
        · cases h
        · split at h
          · cases h
          · cases h
            next rest hrec =>
            intro p hp
            rcases List.mem_cons.mp hp with hp | hp
            · exact ⟨_, i, hp⟩
            · exact ih (i + 1) _ rest hrec p hp

/-- C3, counterexample: with a sequence model returning -1000 and both point
estimators failing (so falling back to 150), the ensemble is -425 and the
reported `upper_bound` is -430.1 < 0: the upper bound is *not* floored at 0,
so the claim's `upper = max(0, ensemble*(1+spread))` (and the non-negativity
of all three reported values) fails. -/
theorem upper_bound_not_floored :
    predict (lstm_const (-1000)) estimator_fail estimator_fail 0 []
        [weather_blank] 1
      = .ok [{ hour := 0, timestamp := 0, predicted_aqi := 0, confidence := 94,
               lower_bound := 0, upper_bound := -4301 / 10,
               risk_level := "Good" }] ∧
    ¬ (0 : ℚ) ≤ -4301 / 10 := by
  constructor
  · norm_num [predict, predict_loop, prepare_features, pad_features, lastN,
      sequence_length, n_features, lstm_const, estimator_fail, safe_predict,
      create_feature_vector, mkForecastPoint, calculate_confidence,
      get_risk_level, round1, round_half_even, weather_blank,
      List.replicate, List.getLast?_cons_cons, List.getLast?_singleton,
      ForecastPoint.mk.injEq]
  · norm_num

/-- C3, amended: with `spread = (1 - confidence/100) * 0.2`, the reported
point estimate is `max(0, round1(ensemble))` and the reported lower bound is
`max(0, round1(ensemble*(1-spread)))` — both floored at 0 and hence
non-negative on every output of `predict` — while the reported upper bound is
`round1(ensemble*(1+spread))` with no floor (and can be negative, see the
counterexample). -/
theorem bounds_floor_asymmetry :
    (∀ (e : ℚ) (i hours : ℕ) (now : ℚ),
      (mkForecastPoint e i hours now).predicted_aqi = max 0 (round1 e) ∧
      (mkForecastPoint e i hours now).lower_bound
        = max 0 (round1 (e * (1 - (1 - calculate_confidence i hours / 100) * 0.2))) ∧
      (mkForecastPoint e i hours now).upper_bound
        = round1 (e * (1 + (1 - calculate_confidence i hours / 100) * 0.2)) ∧
      0 ≤ (mkForecastPoint e i hours now).predicted_aqi ∧
      0 ≤ (mkForecastPoint e i hours now).lower_bound) ∧
    (∀ lstm rf gb now hist w hours ps,
      predict lstm rf gb now hist w hours = .ok ps →
      ∀ p ∈ ps, 0 ≤ p.predicted_aqi ∧ 0 ≤ p.lower_bound) := by
  constructor
  · intro e i hours now
    exact ⟨rfl, rfl, rfl, le_max_left 0 _, le_max_left 0 _⟩
  · intro lstm rf gb now hist w hours ps h p hp
    simp only [predict] at h
    obtain ⟨e, j, rfl⟩ := predict_loop_mem lstm rf gb w now hours hours 0 _ ps h p hp
    exact ⟨le_max_left 0 _, le_max_left 0 _⟩

/-- C3 witness: the floored fields are non-negative on a concrete output
point of `predict`. -/
theorem bounds_floor_asymmetry_witness :
    0 ≤ (ForecastPoint.mk 0 0 87 94 86 88 "Moderate").predicted_aqi ∧
    0 ≤ (ForecastPoint.mk 0 0 87 94 86 88 "Moderate").lower_bound :=
  bounds_floor_asymmetry.2 (lstm_const 80) (estimator_const 90)
    (estimator_const 100) 0 [] [weather_blank] 1
    [ForecastPoint.mk 0 0 87 94 86 88 "Moderate"]
    (by norm_num [predict, predict_loop, prepare_features, pad_features, lastN,
      sequence_length, n_features, lstm_const, estimator_const, safe_predict,
      create_feature_vector, mkForecastPoint, calculate_confidence,
      get_risk_level, round1, round_half_even, weather_blank,
      List.replicate, List.getLast?_cons_cons, List.getLast?_singleton,
      ForecastPoint.mk.injEq])
    (ForecastPoint.mk 0 0 87 94 86 88 "Moderate") (by simp)

/-! ## Determinism theorems (claim C8) -/

theorem drop_timestamp_mkForecastPoint (e : ℚ) (i hours : ℕ) (now now' : ℚ) :
    ForecastPoint.drop_timestamp (mkForecastPoint e i hours now)
      = ForecastPoint.drop_timestamp (mkForecastPoint e i hours now') := rfl

theorem predict_loop_drop_timestamp (lstm : List Feature → Except Unit ℚ)
    (rf gb : Feature → Except Unit ℚ) (w : List Weather) (hours : ℕ)
    (now now' : ℚ) :
    ∀ (r i : ℕ) (seq : List Feature),
      (predict_loop lstm rf gb w now hours i r seq).map
          (List.map ForecastPoint.drop_timestamp)
        = (predict_loop lstm rf gb w now' hours i r seq).map
          (List.map ForecastPoint.drop_timestamp) := by
  intro r
  induction r with
  | zero => intro i seq; rfl
  | succ n ih =>
    intro i seq
    simp only [predict_loop]
    cases lstm seq with
    | error e => rfl
    | ok q =>
      dsimp only
      cases seq.getLast? with
      | none => rfl
      | some recent =>
        dsimp only
        cases create_feature_vector
            (0.5 * q + 0.3 * safe_predict rf recent + 0.2 * safe_predict gb recent)
            i w with
        | none => rfl
        | some nf =>
          dsimp only
          have h := ih (i + 1) (seq.drop 1 ++ [nf])
          cases h1 : predict_loop lstm rf gb w now hours (i + 1) n
              (seq.drop 1 ++ [nf]) with
          | error e =>
            cases h2 : predict_loop lstm rf gb w now' hours (i + 1) n
                (seq.drop 1 ++ [nf]) with
            | error e' => cases e; cases e'; rfl
            | ok rest' =>
              rw [h1, h2] at h
              dsimp only [Except.map] at h
              exact Except.noConfusion h
          | ok rest =>
            cases h2 : predict_loop lstm rf gb w now' hours (i + 1) n
                (seq.drop 1 ++ [nf]) with
            | error e' =>
              rw [h1, h2] at h
              dsimp only [Except.map] at h
              exact Except.noConfusion h
            | ok rest' =>
              rw [h1, h2] at h
              dsimp only [Except.map] at h ⊢
              injection h with h
              rw [List.map_cons, List.map_cons, h,
                drop_timestamp_mkForecastPoint]

/-- C8, counterexample: identical (window, weather, hours) inputs run at two
different wall-clock instants produce different outputs — the per-point
timestamps embed `datetime.now()` of the call, which is not part of the
claimed input triple. -/
theorem predict_output_depends_on_clock :
    predict (lstm_const 80) (estimator_const 90) (estimator_const 100) 0 []
        [weather_blank] 1
      ≠ predict (lstm_const 80) (estimator_const 90) (estimator_const 100)
        3600 [] [weather_blank] 1 := by
  norm_num [predict, predict_loop, prepare_features, pad_features, lastN,
    sequence_length, n_features, lstm_const, estimator_const, safe_predict,
    create_feature_vector, mkForecastPoint, calculate_confidence,
    get_risk_level, round1, round_half_even, weather_blank,
    List.replicate, List.getLast?_cons_cons, List.getLast?_singleton,
    ForecastPoint.mk.injEq]

/-- C8, amended: `predict` is deterministic in (window, weather, hours) in
every field *except* the timestamp: two runs with identical inputs agree on
all timestamp-erased output (so, given the same clock reading, the output is
bit-identical), and each point's timestamp is exactly the clock reading of
the call plus its hour offset. -/
theorem predict_deterministic_up_to_timestamp :
    (∀ lstm rf gb (now now' : ℚ) hist w hours,
      (predict lstm rf gb now hist w hours).map
          (List.map ForecastPoint.drop_timestamp)
        = (predict lstm rf gb now' hist w hours).map
          (List.map ForecastPoint.drop_timestamp)) ∧
    (∀ lstm rf gb now hist w hours ps,
      predict lstm rf gb now hist w hours = .ok ps →
      ∀ p ∈ ps, p.timestamp = now + 3600 * p.hour) := by
  constructor
  · intro lstm rf gb now now' hist w hours
    exact predict_loop_drop_timestamp lstm rf gb w hours now now' hours 0 _
  · intro lstm rf gb now hist w hours ps h p hp
    simp only [predict] at h
    obtain ⟨e, j, rfl⟩ := predict_loop_mem lstm rf gb w now hours hours 0 _ ps h p hp
    rfl

/-- C8 witness: the timestamp law applied on a concrete run. -/
theorem predict_deterministic_up_to_timestamp_witness :
    (ForecastPoint.mk 0 0 87 94 86 88 "Moderate").timestamp
      = 0 + 3600 * ((ForecastPoint.mk 0 0 87 94 86 88 "Moderate").hour : ℚ) :=
  predict_deterministic_up_to_timestamp.2 (lstm_const 80) (estimator_const 90)
    (estimator_const 100) 0 [] [weather_blank] 1
    [ForecastPoint.mk 0 0 87 94 86 88 "Moderate"]
    (by norm_num [predict, predict_loop, prepare_features, pad_features, lastN,
      sequence_length, n_features, lstm_const, estimator_const, safe_predict,
      create_feature_vector, mkForecastPoint, calculate_confidence,
      get_risk_level, round1, round_half_even, weather_blank,
      List.replicate, List.getLast?_cons_cons, List.getLast?_singleton,
      ForecastPoint.mk.injEq])
    (ForecastPoint.mk 0 0 87 94 86 88 "Moderate") (by simp)

/-! ## Batch prediction theorems (claim C7) -/

theorem gather_except_total {α : Type} (xs : List (Except Unit α))
    (h : ∀ x ∈ xs, x ≠ .error ()) :
    ∃ vs, gather_except xs = .ok vs ∧ vs.length = xs.length := by
  induction xs with
  | nil => exact ⟨[], rfl, rfl⟩
  | cons x xs ih =>
    obtain ⟨vs, hvs, hlen⟩ := ih (fun y hy => h y (List.mem_cons_of_mem x hy))
    cases hx : x with
    | error e => cases e; exact absurd hx (h x (List.mem_cons_self x xs))
    | ok v => exact ⟨v :: vs, by simp [gather_except, hvs], by simp [hlen]⟩

theorem gather_except_error {α : Type} (xs : List (Except Unit α))
    (x : Except Unit α) (hx : x ∈ xs) (he : x = .error ()) :
    gather_except xs = .error () := by
  induction xs with
  | nil => cases hx
  | cons y ys ih =>
    rcases List.mem_cons.mp hx with rfl | hmem
    · rw [he]
      rfl
    · cases hy : y with
      | error e => cases e; rfl
      | ok v => simp [gather_except, hy, ih hmem]

/-- C7, counterexample: cities A and C forecast successfully on their own,
yet one failing city (B) makes the whole `batch_predict` raise — no mapping
is returned and the other cities' completed results are not reported. -/
theorem one_city_failure_fails_batch :
    forecast_fails_for_B "A" = .ok "A" ∧ forecast_fails_for_B "C" = .ok "C" ∧
    batch_predict forecast_fails_for_B id ["A", "B", "C"] = .error () :=
  ⟨rfl, rfl, rfl⟩

/-- C7, amended: `batch_predict` issues one forecast per city and, when every
city's forecast succeeds, returns the mapping with one entry per city; but if
any city's forecast fails, the whole batch fails with that error and no other
city's result is reported. -/
theorem batch_predict_all_or_nothing :
    (∀ (α : Type) (f : String → Except Unit α) (city_of : α → String)
        (cities : List String),
      (∀ c ∈ cities, f c ≠ .error ()) →
      ∃ m, batch_predict f city_of cities = .ok m ∧
        m.length = cities.length) ∧
    (∀ (α : Type) (f : String → Except Unit α) (city_of : α → String)
        (cities : List String) (c : String),
      c ∈ cities → f c = .error () →
      batch_predict f city_of cities = .error ()) := by
  constructor
  · intro α f city_of cities hc
    obtain ⟨vs, hvs, hlen⟩ := gather_except_total (cities.map f) (by
      intro x hx
      obtain ⟨c, hcm, rfl⟩ := List.mem_map.mp hx
      exact hc c hcm)
    refine ⟨vs.map (fun r => (city_of r, r)), ?_, by simp [hlen]⟩
    unfold batch_predict
    rw [hvs]
    rfl
  · intro α f city_of cities c hcm hfc
    have h := gather_except_error (cities.map f) (f c)
      (List.mem_map_of_mem f hcm) hfc
    unfold batch_predict
    rw [h]
    rfl

/-- C7 witness: with the failing city absent the batch succeeds with one
entry per city; with the failing city present it fails. -/
theorem batch_predict_all_or_nothing_witness :
    (∃ m, batch_predict forecast_fails_for_B id ["A", "C"] = .ok m ∧
       m.length = (["A", "C"] : List String).length) ∧
    batch_predict forecast_fails_for_B id ["B"] = .error () :=
  ⟨batch_predict_all_or_nothing.1 String forecast_fails_for_B id ["A", "C"]
     (by intro c hc; fin_cases hc <;> exact fun h => nomatch h),
   batch_predict_all_or_nothing.2 String forecast_fails_for_B id ["B"] "B"
     (by simp) rfl⟩

end BreatheSmart
